import Mathlib

/-!
Formal model of the client-side interaction logic of the Torestech
single-page website (`src/app/page.tsx`, `src/app/layout.tsx`).

The page component keeps four pieces of state: the theme string (managed
by next-themes, default `"system"` per `layout.tsx`), the mobile-menu
flag, the WhatsApp-button visibility flag, and the four animated
statistics counters.  The event handlers are:

* `toggleDarkMode` — `setTheme(theme === "dark" ? "light" : "dark")`;
* `handleScroll`   — `setShowWhatsApp(window.scrollY > 300)`;
* the IntersectionObserver callback — for every delivered entry with
  `isIntersecting` it calls `animateStats()` (there is no guard);
* `animateStats`   — for each of the four targets 150, 99, 5, 24 it
  starts an interval timer that repeatedly adds `target / 60` to a
  running value, clamps to `target` once the value reaches it, and
  displays `Math.floor(current)` at every tick;
* `scrollToSection` — `document.getElementById(id)?.scrollIntoView(...)`
  followed by `setIsMobileMenuOpen(false)`.

JavaScript numbers are IEEE-754 binary64 values.  The arithmetic of
`animateStats` (`target / 60`, `current += increment`) rounds at every
operation, and that rounding is observable: it decides at which tick a
counter clamps.  We therefore model the number type as ℚ together with
an explicit rounding function `fl` that rounds a rational to the nearest
binary64 value (ties to even), which is exact for the normal-range
positive magnitudes that occur in this program.
-/

set_option maxRecDepth 1000000

namespace Torestech

/-! ## IEEE-754 binary64 rounding on ℚ -/

/-- Round the ratio `a / b` (with `b ≠ 0`) to the nearest natural number,
ties to even — the rounding used by IEEE-754 round-to-nearest. -/
def roundHalfEven (a b : ℕ) : ℕ :=
  let v := a / b
  let r := a % b
  if 2 * r < b then v
  else if b < 2 * r then v + 1
  else if v % 2 = 0 then v else v + 1

/-- `log2Aux fuel n = ⌊log₂ n⌋` for `1 ≤ n < 2 ^ fuel`.  Structural
recursion on the fuel so that the kernel can evaluate it (core's
`Nat.log2` is well-founded and does not reduce). -/
def log2Aux : ℕ → ℕ → ℕ
  | 0, _ => 0
  | fuel + 1, n => if n ≤ 1 then 0 else log2Aux fuel (n / 2) + 1

/-- `fl q` rounds a rational to the nearest IEEE-754 binary64 double
(53-bit significand, round to nearest, ties to even).  Exact for
positive `q` of normal-range magnitude (in particular for every value
arising in `animateStats`); nonpositive arguments return `0` (only `0`
itself occurs).  This models the rounding a JavaScript engine performs
after each arithmetic operation on numbers. -/
def fl (q : ℚ) : ℚ :=
  if q ≤ 0 then 0
  else
    let n := q.num.toNat
    let d := q.den
    -- ⌊log₂ q⌋ + 60, valid whenever q ≥ 2⁻⁶⁰
    let l : ℕ := log2Aux 200 (n * 2 ^ 60 / d)
    -- the ulp of q is 2 ^ (l - 112) (as an integer exponent)
    if 112 ≤ l then
      let p := l - 112
      (roundHalfEven n (d * 2 ^ p) : ℚ) * 2 ^ p
    else
      let p := 112 - l
      (roundHalfEven (n * 2 ^ p) d : ℚ) / 2 ^ p

/-! ## The counter animation (`animateStats`, page.tsx lines 105–127)

`steps = 60`, `increment = target / steps`; each interval tick executes
`current += increment; if (current >= target) { current = target;
clearInterval(timer) }` and then displays `Math.floor(current)`.
-/

/-- `steps` from `animateStats`: 60 animation steps. -/
def steps : ℕ := 60

/-- `increment = target / steps`, as the JavaScript engine computes it:
the division rounds to the nearest double. -/
def increment (target : ℚ) : ℚ := fl (target / steps)

/-- One interval tick of one counter: `current += increment` (rounded),
then clamp-and-stop when `current >= target`.  Returns the new running
value and whether `clearInterval` fired. -/
def tick (target current : ℚ) : ℚ × Bool :=
  let c := fl (current + increment target)
  if target ≤ c then (target, true) else (c, false)

/-- State of one counter after `k` interval ticks: the running `current`
value and whether its interval has been cleared.  `current` starts at
`0`; once the timer is cleared no further tick runs. -/
def runCounter (target : ℚ) : ℕ → ℚ × Bool
  | 0 => (0, false)
  | k + 1 =>
    let s := runCounter target k
    if s.2 then s else tick target s.1

/-- The value displayed for a counter after `k` ticks:
`Math.floor(current)` (`Rat.floor` is the mathematical floor, which is
what `Math.floor` computes on these values). -/
def displayed (target : ℚ) (k : ℕ) : ℤ := ((runCounter target k).1).floor

/-! ## Theme toggle (`toggleDarkMode`, page.tsx lines 61–63) -/

/-- `toggleDarkMode`: `setTheme(theme === "dark" ? "light" : "dark")`.
The function returns the theme value passed to `setTheme`. -/
def toggleDarkMode (theme : String) : String :=
  if theme = "dark" then "light" else "dark"

/-! ## Scroll handler (`handleScroll`, page.tsx lines 69–75) -/

/-- `handleScroll`: `setShowWhatsApp(window.scrollY > 300)`.  The flag
passed to `setShowWhatsApp`, as a function of the current scroll offset
in pixels. -/
def handleScroll (scrollY : ℤ) : Bool :=
  decide (300 < scrollY)

/-! ## The DOM and `scrollToSection` (page.tsx lines 133–136) -/

/-- `document.getElementById`: the document is modelled as the list of
element ids present in it; the lookup returns the id when present. -/
def getElementById (dom : List String) (id : String) : Option String :=
  if id ∈ dom then some id else none

/-- The observable outcome of one `scrollToSection` call: which element
(if any) was scrolled into view, and the mobile-menu flag afterwards. -/
structure ScrollEffect where
  scrolledTo : Option String
  mobileMenuOpen : Bool
deriving DecidableEq, Repr

/-- `scrollToSection` (page.tsx lines 133–136):
`document.getElementById(sectionId)?.scrollIntoView({behavior:"smooth"})`
followed by `setIsMobileMenuOpen(false)`.  The optional chaining makes
the scroll a no-op when the element is absent; the function is total
(never throws) and closes the mobile menu unconditionally. -/
def scrollToSection (dom : List String) (sectionId : String) : ScrollEffect :=
  { scrolledTo := getElementById dom sectionId
    mobileMenuOpen := false }

/-! ## Page session model

The component's state (page.tsx lines 41–55) and its event handlers,
folded over a list of browser events.  Interval timers created by
`animateStats` all share the same cadence (`duration / steps` ms), so a
`timerTick` event advances every live timer by one step, in the order
the timers were created.
-/

/-- The `animatedStats` state object (page.tsx lines 50–55): the four
displayed counter values, all initially `0`. -/
structure Stats where
  projects : ℤ
  clients : ℤ
  years : ℤ
  hours : ℤ
deriving DecidableEq, Repr

/-- The `targets` object of `animateStats` (page.tsx line 106). -/
def targetOf : String → ℚ
  | "projects" => 150
  | "clients" => 99
  | "years" => 5
  | "hours" => 24
  | _ => 0

/-- `Object.keys(targets)`, in JavaScript insertion order. -/
def statKeys : List String := ["projects", "clients", "years", "hours"]

/-- Write one field of the stats object, by key
(`setAnimatedStats((prev) => ({ ...prev, [key]: ... }))`). -/
def setStat (s : Stats) (key : String) (v : ℤ) : Stats :=
  if key = "projects" then { s with projects := v }
  else if key = "clients" then { s with clients := v }
  else if key = "years" then { s with years := v }
  else if key = "hours" then { s with hours := v }
  else s

/-- The whole component state plus the live interval timers.  A timer is
the pair of its counter key and its `current` accumulator.  `runsStarted`
counts the calls to `animateStats` (the Idle→Running transitions of the
spec's state machine). -/
structure PageState where
  theme : String
  mobileMenuOpen : Bool
  showWhatsApp : Bool
  animatedStats : Stats
  timers : List (String × ℚ)
  runsStarted : ℕ
deriving DecidableEq, Repr

/-- Initial component state: theme `"system"` (the `defaultTheme` of the
`ThemeProvider` in layout.tsx lines 61–66), menu closed, WhatsApp button
hidden, all counters `0`, no timers. -/
def initialState : PageState :=
  { theme := "system"
    mobileMenuOpen := false
    showWhatsApp := false
    animatedStats := ⟨0, 0, 0, 0⟩
    timers := []
    runsStarted := 0 }

/-- One call of `animateStats` (page.tsx lines 105–127): for each of the
four keys it starts an interval timer with accumulator `0`.  Nothing in
the source guards against starting timers that already exist. -/
def animateStats (s : PageState) : PageState :=
  { s with
    timers := s.timers ++ statKeys.map fun key => (key, 0)
    runsStarted := s.runsStarted + 1 }

/-- One firing of one interval timer (page.tsx lines 115–125):
`current += increment`, clamp and clear on `current >= target`, then
display `Math.floor(current)`.  The accumulator is threaded through the
state; a cleared timer is dropped from the live list. -/
def stepTimer (acc : Stats × List (String × ℚ)) (tm : String × ℚ) :
    Stats × List (String × ℚ) :=
  let t := targetOf tm.1
  let c := fl (tm.2 + increment t)
  if t ≤ c then (setStat acc.1 tm.1 t.floor, acc.2)
  else (setStat acc.1 tm.1 c.floor, acc.2 ++ [(tm.1, c)])

/-- The observer-setup effect (page.tsx lines 81–99):
`document.getElementById("stats-section")` and `observer.observe` on the
result when it exists.  Total: with no such element it simply observes
nothing. -/
def observeTargets (dom : List String) : List String :=
  match getElementById dom "stats-section" with
  | some el => [el]
  | none => []

/-- The discrete browser events the component reacts to.  An
`intersectionEvent` carries the `isIntersecting` flag of each entry
delivered to the IntersectionObserver callback. -/
inductive Event where
  | scroll (scrollY : ℤ)
  | themeClick
  | menuClick
  | navClick (sectionId : String)
  | intersectionEvent (entries : List Bool)
  | timerTick
deriving DecidableEq, Repr

/-- One step of the page session.  `scroll` runs `handleScroll`;
`themeClick` runs `toggleDarkMode`; `menuClick` flips the menu;
`navClick` runs `scrollToSection` (whose only state change is closing
the menu); an intersection event runs the observer callback
(page.tsx lines 83–88) — for every entry with `isIntersecting` it calls
`animateStats`, with no once-only guard — and is delivered only when the
stats section was actually observed; `timerTick` fires every live
interval timer once. -/
def step (dom : List String) (s : PageState) : Event → PageState
  | .scroll y => { s with showWhatsApp := handleScroll y }
  | .themeClick => { s with theme := toggleDarkMode s.theme }
  | .menuClick => { s with mobileMenuOpen := !s.mobileMenuOpen }
  | .navClick _ => { s with mobileMenuOpen := false }
  | .intersectionEvent entries =>
      if observeTargets dom = [] then s
      else entries.foldl (fun st isIntersecting =>
        if isIntersecting then animateStats st else st) s
  | .timerTick =>
      let r := s.timers.foldl stepTimer (s.animatedStats, [])
      { s with animatedStats := r.1, timers := r.2 }

/-- A whole page session: the events folded over the initial state. -/
def runSession (dom : List String) (events : List Event) : PageState :=
  events.foldl (step dom) initialState

/-- Whether an event makes the 50%-visibility condition fire: an
intersection event with at least one `isIntersecting` entry. -/
def firesIntersection : Event → Bool
  | .intersectionEvent entries => entries.any id
  | _ => false

/-- How many times one event makes the observer callback call
`animateStats`: the number of `isIntersecting` entries it carries. -/
def intersectingCount : Event → ℕ
  | .intersectionEvent entries => (entries.filter id).length
  | _ => 0

/-- Total number of `animateStats` calls a list of events causes. -/
def totalIntersecting (events : List Event) : ℕ :=
  (events.map intersectingCount).sum

end Torestech

/-! ## Theorems -/

namespace Torestech

/-- `Rat.floor` agrees with the mathematical floor function. -/
theorem ratFloor_eq_intFloor (q : ℚ) : q.floor = ⌊q⌋ :=
  (Rat.floor_def' q).trans Rat.floor_def.symm

/-- Once a counter's interval has been cleared (`clearInterval`), its
state never changes again. -/
theorem runCounter_stable (t : ℚ) (n : ℕ) (h : (runCounter t n).2 = true) :
    ∀ j, runCounter t (n + j) = runCounter t n := by
  intro j
  induction j with
  | zero => rfl
  | succ j ih =>
    have e : n + (j + 1) = (n + j) + 1 := rfl
    rw [e]
    simp only [runCounter]
    rw [ih]
    simp [h]

/-- A property that holds at every tick up to the tick where the counter
stopped holds at every tick whatsoever. -/
theorem runCounter_all (t : ℚ) (n : ℕ) (h : (runCounter t n).2 = true)
    (P : ℚ × Bool → Prop) (hfin : ∀ k ≤ n, P (runCounter t k)) :
    ∀ k, P (runCounter t k) := by
  intro k
  rcases le_or_lt k n with hk | hk
  · exact hfin k hk
  · obtain ⟨j, rfl⟩ := Nat.exists_eq_add_of_le hk.le
    rw [runCounter_stable t n h j]
    exact hfin n le_rfl

/-- Adjacent-tick monotonicity up to the stopping tick extends to all
ticks. -/
theorem displayed_mono_all (t : ℚ) (n : ℕ) (h : (runCounter t n).2 = true)
    (hfin : ∀ k < n, displayed t k ≤ displayed t (k + 1)) :
    ∀ k, displayed t k ≤ displayed t (k + 1) := by
  intro k
  rcases lt_or_ge k n with hk | hk
  · exact hfin k hk
  · obtain ⟨j, rfl⟩ := Nat.exists_eq_add_of_le hk
    unfold displayed
    rw [runCounter_stable t n h j, Nat.add_assoc, runCounter_stable t n h (j + 1)]

/-- An upper bound on the displayed value valid up to the stopping tick
is valid at every tick. -/
theorem displayed_le_all (t : ℚ) (b : ℤ) (h : (runCounter t 61).2 = true)
    (hfin : ∀ k ≤ 61, displayed t k ≤ b) : ∀ k, displayed t k ≤ b :=
  runCounter_all t 61 h (fun s => s.1.floor ≤ b) hfin

/-- The run facts claim C2 asserts of one counter, derived from the two
concrete checks that the counter has stopped at tick 61 with value
exactly `t` and that the displayed values are non-decreasing up to
there. -/
theorem counter_ok (t : ℚ) (hstop : runCounter t 61 = (t, true))
    (hmono : ∀ k < 61, displayed t k ≤ displayed t (k + 1)) :
    displayed t 0 = 0 ∧ (∀ k, displayed t k = ⌊(runCounter t k).1⌋) ∧
      (∀ k, displayed t k ≤ displayed t (k + 1)) ∧
      ∀ j, runCounter t (61 + j) = (t, true) := by
  have h2 : (runCounter t 61).2 = true := by rw [hstop]
  refine ⟨?_, fun k => ratFloor_eq_intFloor _,
    displayed_mono_all t 61 h2 hmono, fun j => ?_⟩
  · show ((runCounter t 0).1).floor = 0
    rw [ratFloor_eq_intFloor]
    exact Int.floor_zero
  · rw [runCounter_stable t 61 h2 j, hstop]

end Torestech

namespace Torestech

/-- Claim C2: for every one of the four counters (projects 150,
clients 99, years 5, hours 24), the displayed sequence starts at 0, each
displayed value is the floor of the running accumulated value, the
sequence is non-decreasing, and the run terminates exactly at the stated
target: from tick 61 on, the running value is exactly the target and the
counter's interval has been cleared. -/
theorem claim_C2 :
    (displayed 150 0 = 0 ∧ (∀ k, displayed 150 k = ⌊(runCounter 150 k).1⌋) ∧
      (∀ k, displayed 150 k ≤ displayed 150 (k + 1)) ∧
      ∀ j, runCounter 150 (61 + j) = (150, true)) ∧
    (displayed 99 0 = 0 ∧ (∀ k, displayed 99 k = ⌊(runCounter 99 k).1⌋) ∧
      (∀ k, displayed 99 k ≤ displayed 99 (k + 1)) ∧
      ∀ j, runCounter 99 (61 + j) = (99, true)) ∧
    (displayed 5 0 = 0 ∧ (∀ k, displayed 5 k = ⌊(runCounter 5 k).1⌋) ∧
      (∀ k, displayed 5 k ≤ displayed 5 (k + 1)) ∧
      ∀ j, runCounter 5 (61 + j) = (5, true)) ∧
    (displayed 24 0 = 0 ∧ (∀ k, displayed 24 k = ⌊(runCounter 24 k).1⌋) ∧
      (∀ k, displayed 24 k ≤ displayed 24 (k + 1)) ∧
      ∀ j, runCounter 24 (61 + j) = (24, true)) :=
  ⟨counter_ok 150 (by with_unfolding_all decide) (by with_unfolding_all decide),
   counter_ok 99 (by with_unfolding_all decide) (by with_unfolding_all decide),
   counter_ok 5 (by with_unfolding_all decide) (by with_unfolding_all decide),
   counter_ok 24 (by with_unfolding_all decide) (by with_unfolding_all decide)⟩

end Torestech

namespace Torestech

/-- Claim C3 counterexample: the claim says every counter clamps
(reaches target and stops its own ticking) exactly at tick 60 with the
four displayed values then being exactly 150, 99, 5, 24.  Under the
IEEE-754 binary64 arithmetic the code actually executes, the years and
hours counters have NOT stopped at tick 60: their accumulated values
are still short of target (the 60 rounded additions of `5/60` and
`24/60` sum to just below 5 and 24) and they display 4 and 23. -/
theorem claim_C3_counterexample :
    (runCounter 5 60).2 = false ∧ displayed 5 60 = 4 ∧
      (runCounter 24 60).2 = false ∧ displayed 24 60 = 23 := by
  with_unfolding_all decide

/-- Claim C3 amended: no counter's displayed value ever exceeds its
target; the projects (150) and clients (99) counters clamp exactly at
tick 60 (not stopped at any earlier tick, stopped with value exactly
the target at tick 60), while the years (5) and hours (24) counters
clamp exactly at tick 61, floating-point rounding having left their
accumulated values just below target at tick 60; one tick after all
counters have clamped the four displayed values are exactly
150, 99, 5, 24. -/
theorem claim_C3_amended :
    (∀ k, displayed 150 k ≤ 150) ∧ (∀ k, displayed 99 k ≤ 99) ∧
    (∀ k, displayed 5 k ≤ 5) ∧ (∀ k, displayed 24 k ≤ 24) ∧
    ((List.range 60).all fun k => !(runCounter 150 k).2) = true ∧
    runCounter 150 60 = (150, true) ∧
    ((List.range 60).all fun k => !(runCounter 99 k).2) = true ∧
    runCounter 99 60 = (99, true) ∧
    ((List.range 61).all fun k => !(runCounter 5 k).2) = true ∧
    runCounter 5 61 = (5, true) ∧
    ((List.range 61).all fun k => !(runCounter 24 k).2) = true ∧
    runCounter 24 61 = (24, true) ∧
    displayed 150 61 = 150 ∧ displayed 99 61 = 99 ∧
    displayed 5 61 = 5 ∧ displayed 24 61 = 24 := by
  refine ⟨displayed_le_all 150 150 (by with_unfolding_all decide)
      (by with_unfolding_all decide),
    displayed_le_all 99 99 (by with_unfolding_all decide)
      (by with_unfolding_all decide),
    displayed_le_all 5 5 (by with_unfolding_all decide)
      (by with_unfolding_all decide),
    displayed_le_all 24 24 (by with_unfolding_all decide)
      (by with_unfolding_all decide), ?_⟩
  with_unfolding_all decide

end Torestech

namespace Torestech

/-- Claim C4: `scrollToSection` is a total function (the optional
chaining after `getElementById` means no input can make it throw), it
sets the mobile-menu flag to `false` for every input, for a `sectionId`
naming no element in the document the scroll is a no-op, and in the page
session a navigation click changes nothing but the menu flag. -/
theorem claim_C4 :
    ∀ (dom : List String) (sectionId : String),
      (scrollToSection dom sectionId).mobileMenuOpen = false ∧
      (sectionId ∉ dom → (scrollToSection dom sectionId).scrolledTo = none) ∧
      ∀ s : PageState,
        step dom s (.navClick sectionId) = { s with mobileMenuOpen := false } := by
  intro dom sectionId
  refine ⟨rfl, fun h => ?_, fun s => rfl⟩
  simp [scrollToSection, getElementById, h]

/-- Witness for claim C4: the standard document with an unknown id. -/
theorem claim_C4_witness :
    (scrollToSection ["hero", "services", "about", "contact"]
      "pricing").mobileMenuOpen = false ∧
    (scrollToSection ["hero", "services", "about", "contact"]
      "pricing").scrolledTo = none :=
  ⟨(claim_C4 ["hero", "services", "about", "contact"] "pricing").1,
   (claim_C4 ["hero", "services", "about", "contact"] "pricing").2.1
     (by decide)⟩

/-- Claim C5: the scroll handler sets the WhatsApp-button visibility to
exactly `scrollY > 300`, as a function of the current offset only
(whatever the previous page state was), and on the offset sequence
0, 150, 320, 280 the visibility sequence is
false, false, true, false. -/
theorem claim_C5 :
    (∀ (dom : List String) (s : PageState) (y : ℤ),
      (step dom s (.scroll y)).showWhatsApp = handleScroll y) ∧
    (∀ y : ℤ, handleScroll y = true ↔ 300 < y) ∧
    [(0 : ℤ), 150, 320, 280].map handleScroll =
      [false, false, true, false] := by
  refine ⟨fun _ _ _ => rfl, fun y => ?_, by decide⟩
  simp [handleScroll]

/-- Witness for claim C5: the visibility criterion applied at a concrete
offset. -/
theorem claim_C5_witness : handleScroll 400 = true :=
  (claim_C5.2.1 400).mpr (by decide)

/-- Claim C6: from `"light"` the toggle goes to `"dark"` and from
`"dark"` back to `"light"`; on the two-element domain
`{"light", "dark"}` the toggle is an involution. -/
theorem claim_C6 :
    toggleDarkMode "light" = "dark" ∧ toggleDarkMode "dark" = "light" ∧
    ∀ theme : String, theme = "light" ∨ theme = "dark" →
      toggleDarkMode (toggleDarkMode theme) = theme := by
  refine ⟨rfl, rfl, fun t h => ?_⟩
  rcases h with rfl | rfl <;> rfl

/-- Witness for claim C6: the double toggle evaluated at `"light"`. -/
theorem claim_C6_witness :
    toggleDarkMode (toggleDarkMode "light") = "light" :=
  claim_C6.2.2 "light" (Or.inl rfl)

/-- Claim C8: the initial theme preference is the string `"system"`
(layout.tsx), and `toggleDarkMode` maps every theme value other than the
exact string `"dark"` — in particular `"system"` — to `"dark"`, so the
first toggle from the default always selects dark mode. -/
theorem claim_C8 :
    initialState.theme = "system" ∧ toggleDarkMode "system" = "dark" ∧
    ∀ theme : String, theme ≠ "dark" → toggleDarkMode theme = "dark" := by
  refine ⟨rfl, rfl, fun t h => ?_⟩
  simp [toggleDarkMode, h]

/-- Witness for claim C8: the toggle applied to the initial `"system"`
value. -/
theorem claim_C8_witness : toggleDarkMode "system" = "dark" :=
  claim_C8.2.2 "system" (by decide)

/-- Claim C9: the 300-pixel threshold is strict — at offset exactly 300
the button is not visible, and (on whole-pixel offsets) it is visible
precisely for offsets 301 and above. -/
theorem claim_C9 :
    handleScroll 300 = false ∧ ∀ y : ℤ, handleScroll y = true ↔ 301 ≤ y := by
  refine ⟨rfl, fun y => ?_⟩
  rw [handleScroll, decide_eq_true_iff]
  omega

/-- Witness for claim C9: the boundary offsets 300 and 301. -/
theorem claim_C9_witness : handleScroll 301 = true :=
  (claim_C9.2 301).mpr (by decide)

end Torestech

namespace Torestech

/-- The observer callback (page.tsx lines 83–88) starts one animation
run per `isIntersecting` entry it is handed. -/
theorem foldEntries_runsStarted (entries : List Bool) (s : PageState) :
    (entries.foldl (fun st isIntersecting =>
        if isIntersecting then animateStats st else st) s).runsStarted
      = s.runsStarted + (entries.filter id).length := by
  induction entries generalizing s with
  | nil => rfl
  | cons b bs ih =>
    cases b with
    | false => simpa [List.filter_cons] using ih s
    | true =>
      have hid : id true = true := rfl
      rw [List.foldl_cons, if_pos rfl, ih (animateStats s), List.filter_cons,
        if_pos hid, List.length_cons]
      have ha : (animateStats s).runsStarted = s.runsStarted + 1 := rfl
      rw [ha]
      omega

end Torestech

namespace Torestech

/-- With all-false entries the observer callback leaves the state
untouched. -/
theorem foldEntries_id (entries : List Bool) (h : entries.any id = false)
    (s : PageState) :
    entries.foldl (fun st isIntersecting =>
      if isIntersecting then animateStats st else st) s = s := by
  induction entries generalizing s with
  | nil => rfl
  | cons b bs ih =>
    simp only [List.any_cons, Bool.or_eq_false_iff] at h
    obtain ⟨hb, hbs⟩ := h
    cases b with
    | false => simpa using ih hbs s
    | true => exact absurd hb (by simp)

/-- When the stats section is observed, every event changes
`runsStarted` by exactly its number of intersecting entries. -/
theorem step_runsStarted (dom : List String)
    (hdom : observeTargets dom ≠ []) (s : PageState) (e : Event) :
    (step dom s e).runsStarted = s.runsStarted + intersectingCount e := by
  cases e with
  | scroll y => rfl
  | themeClick => rfl
  | menuClick => rfl
  | navClick id => rfl
  | timerTick => rfl
  | intersectionEvent entries =>
    simp [step, if_neg hdom, foldEntries_runsStarted, intersectingCount]

/-- Session version of `step_runsStarted`. -/
theorem foldSession_runsStarted (dom : List String)
    (hdom : observeTargets dom ≠ []) (events : List Event) (s : PageState) :
    (events.foldl (step dom) s).runsStarted
      = s.runsStarted + totalIntersecting events := by
  induction events generalizing s with
  | nil => rfl
  | cons e es ih =>
    simp only [List.foldl_cons, totalIntersecting, List.map_cons,
      List.sum_cons, ih, step_runsStarted dom hdom]
    omega

/-- If the counters are untouched (no run started, no timers, all four
counters zero), any event that does not make the visibility condition
fire — or any event at all when the stats section was never observed —
leaves them untouched. -/
theorem step_quiescent (dom : List String) (s : PageState) (e : Event)
    (h1 : s.animatedStats = ⟨0, 0, 0, 0⟩) (h2 : s.timers = [])
    (h3 : s.runsStarted = 0)
    (he : firesIntersection e = false ∨ observeTargets dom = []) :
    (step dom s e).animatedStats = ⟨0, 0, 0, 0⟩ ∧
      (step dom s e).timers = [] ∧ (step dom s e).runsStarted = 0 := by
  cases e with
  | scroll y => exact ⟨h1, h2, h3⟩
  | themeClick => exact ⟨h1, h2, h3⟩
  | menuClick => exact ⟨h1, h2, h3⟩
  | navClick id => exact ⟨h1, h2, h3⟩
  | timerTick => simp [step, h1, h2, h3]
  | intersectionEvent entries =>
    by_cases hdom : observeTargets dom = []
    · simp only [step, if_pos hdom]
      exact ⟨h1, h2, h3⟩
    · rcases he with he | he
      · simp only [firesIntersection] at he
        simp only [step, if_neg hdom, foldEntries_id entries he s]
        exact ⟨h1, h2, h3⟩
      · exact absurd he hdom

/-- Session version of `step_quiescent`. -/
theorem foldSession_quiescent (dom : List String) (events : List Event)
    (s : PageState) (h1 : s.animatedStats = ⟨0, 0, 0, 0⟩)
    (h2 : s.timers = []) (h3 : s.runsStarted = 0)
    (he : ∀ e ∈ events,
      firesIntersection e = false ∨ observeTargets dom = []) :
    (events.foldl (step dom) s).animatedStats = ⟨0, 0, 0, 0⟩ ∧
      (events.foldl (step dom) s).timers = [] ∧
      (events.foldl (step dom) s).runsStarted = 0 := by
  induction events generalizing s with
  | nil => exact ⟨h1, h2, h3⟩
  | cons e es ih =>
    obtain ⟨g1, g2, g3⟩ :=
      step_quiescent dom s e h1 h2 h3 (he e (List.mem_cons_self e es))
    exact ih (step dom s e) g1 g2 g3
      fun x hx => he x (List.mem_cons_of_mem e hx)

end Torestech

namespace Torestech

/-- Claim C1 counterexample: the observer callback has no Idle→Running
guard, so the claim that `animateStats` is started at most once per
session fails.  Concretely: in a session where the 50%-visibility
condition fires twice — the second time while the first run's timers are
still live (the state is `Running`) — `animateStats` is started twice,
not at most once. -/
theorem claim_C1_counterexample :
    (runSession ["stats-section"]
      [.intersectionEvent [true], .intersectionEvent [true]]).runsStarted
        = 2 ∧
    ¬ (runSession ["stats-section"]
      [.intersectionEvent [true], .intersectionEvent [true]]).runsStarted
        ≤ 1 := by
  with_unfolding_all decide

/-- Claim C1 amended: the code has no guard at all — every intersection
entry with `isIntersecting = true` starts another animation run, so over
any session the number of `animateStats` starts equals the total number
of intersecting entries delivered, and a visibility event arriving while
a run is live (or after it finished) starts a duplicate run. -/
theorem claim_C1_amended :
    ∀ events : List Event,
      (runSession ["stats-section"] events).runsStarted
        = totalIntersecting events := by
  intro events
  have hdom : observeTargets ["stats-section"] ≠ [] := by decide
  have h := foldSession_runsStarted ["stats-section"] hdom events initialState
  simpa [runSession, initialState] using h

/-- Claim C7: if no intersection event with `isIntersecting` ever fires,
the state machine stays Idle for the whole session — no run is started
and no timer exists — and all four counters keep their initial value 0,
whatever scroll, theme, menu or navigation events occur. -/
theorem claim_C7 :
    ∀ (dom : List String) (events : List Event),
      (∀ e ∈ events, firesIntersection e = false) →
      (runSession dom events).animatedStats = ⟨0, 0, 0, 0⟩ ∧
        (runSession dom events).runsStarted = 0 ∧
        (runSession dom events).timers = [] := by
  intro dom events he
  obtain ⟨g1, g2, g3⟩ := foldSession_quiescent dom events initialState
    rfl rfl rfl (fun e hx => Or.inl (he e hx))
  exact ⟨g1, g3, g2⟩

/-- Witness for claim C7: a session full of other events, including a
non-intersecting visibility event and a timer tick, on the standard
document. -/
theorem claim_C7_witness :
    (runSession ["stats-section", "hero"]
      [.scroll 400, .themeClick, .menuClick, .navClick "about",
        .intersectionEvent [false], .timerTick]).animatedStats
      = ⟨0, 0, 0, 0⟩ ∧
    (runSession ["stats-section", "hero"]
      [.scroll 400, .themeClick, .menuClick, .navClick "about",
        .intersectionEvent [false], .timerTick]).runsStarted = 0 ∧
    (runSession ["stats-section", "hero"]
      [.scroll 400, .themeClick, .menuClick, .navClick "about",
        .intersectionEvent [false], .timerTick]).timers = [] :=
  claim_C7 ["stats-section", "hero"]
    [.scroll 400, .themeClick, .menuClick, .navClick "about",
      .intersectionEvent [false], .timerTick] (by decide)

/-- Claim C10: with no element of id `"stats-section"` in the document,
the observer-setup effect (a total function — it cannot throw) observes
nothing, and then no session — even one containing intersecting
visibility events — ever starts the animation: the counters display 0
for the entire session. -/
theorem claim_C10 :
    ∀ (dom : List String) (events : List Event), "stats-section" ∉ dom →
      observeTargets dom = [] ∧
      (runSession dom events).animatedStats = ⟨0, 0, 0, 0⟩ ∧
        (runSession dom events).runsStarted = 0 := by
  intro dom events h
  have hobs : observeTargets dom = [] := by
    simp [observeTargets, getElementById, h]
  obtain ⟨g1, _, g3⟩ := foldSession_quiescent dom events initialState
    rfl rfl rfl (fun e _ => Or.inr hobs)
  exact ⟨hobs, g1, g3⟩

/-- Witness for claim C10: a document without the stats section, and a
session that does contain an intersecting visibility event. -/
theorem claim_C10_witness :
    observeTargets ["hero", "services", "about", "contact"] = [] ∧
    (runSession ["hero", "services", "about", "contact"]
      [.intersectionEvent [true], .timerTick]).animatedStats
      = ⟨0, 0, 0, 0⟩ ∧
    (runSession ["hero", "services", "about", "contact"]
      [.intersectionEvent [true], .timerTick]).runsStarted = 0 :=
  claim_C10 ["hero", "services", "about", "contact"]
    [.intersectionEvent [true], .timerTick] (by decide)

end Torestech
